import Mathlib

/-!
Shallow embedding of the Xournal++ Lua API bridge
(src/core/plugin/luapi_application.h) and proofs about its entry points.

Lua numbers are modelled as rationals, Lua integers as mathematical
integers with the C integral conversions (size_t, uint32_t) written out as
explicit modular reductions.  A decoded Lua argument table is modelled as a
record of `Option` fields: `none` is an absent (nil) field.  Entry points
that can call `luaL_error` return `Except LuaAbort`; an `Except.error`
result models the abort of the whole call, with no document mutation.
-/

namespace Xpp

/-- Failure channel of an entry point.  `validation` is a `luaL_error`
abort raised by the bridge itself; `runtimeFault` models a raw Lua/C fault
that is not one of the bridge error messages (such as `lua_next` applied
to a non-table value). -/
inductive LuaAbort where
  | validation (msg : String)
  | runtimeFault (msg : String)
deriving DecidableEq

/-- Modelled from the spec: a stroke point (x, y, pressure-or-unset).
The `Point` constructor of model/Point.h (not under src/) takes x, y,
pressure in that order, as in the data-model description of §3. -/
structure Point where
  x : ℚ
  y : ℚ
  pressure : ℚ
deriving DecidableEq

/-- Modelled from the spec: the distinguished no-pressure sentinel
`Point::NO_PRESSURE` (model/Point.h is not under src/); the claims only
compare against the sentinel, so its concrete value is immaterial. -/
def NO_PRESSURE : ℚ := -1

/-- Stroke tool-type tag set by `addStrokeHelper`. -/
inductive StrokeTool where
  | STROKE_TOOL_PEN
  | STROKE_TOOL_HIGHLIGHTER
deriving DecidableEq

/-- A committed stroke: its point sequence and the resolved visual
attributes.  `lineStyle` keeps the style string itself
(`StrokeStyle::parseStyle`, not under src/, is modelled as the identity
on the style tag). -/
structure Stroke where
  points : List Point
  toolType : StrokeTool
  width : ℚ
  color : Int
  fill : Int
  lineStyle : String
deriving DecidableEq

/-- A document layer; `addStrokeHelper` appends committed strokes to
`elements`. -/
structure Layer where
  elements : List Stroke
deriving DecidableEq

/-- Read-only snapshot of the parts of `ToolHandler` that
`addStrokeHelper` consults (pen and highlighter attributes). -/
structure ToolHandlerSnapshot where
  penThickness : ℚ
  penFill : Int
  penFillEnabled : Bool
  penColor : Int
  penLineStyle : String
  highlighterThickness : ℚ
  highlighterFill : Int
  highlighterFillEnabled : Bool
  highlighterColor : Int
deriving DecidableEq

/-- The five attribute fields of the argument table that
`addStrokeHelper` reads (`tool`, `width`, `color`, `fill`, `lineStyle`);
`none` is an absent field. -/
structure StrokeAttrArgs where
  tool : Option String
  width : Option ℚ
  color : Option Int
  fill : Option Int
  lineStyle : Option String
deriving DecidableEq

/-- Attribute resolution of `addStrokeHelper` (the branch taken once at
least two points exist).  An explicit field overrides the tool snapshot,
field by field.  In the highlighter branch of the source the local
`lineStyle` variable is never assigned (the pen branch assigns it), so the
highlighter default style is the empty string. -/
def resolveStrokeAttributes (args : StrokeAttrArgs) (th : ToolHandlerSnapshot)
    (points : List Point) : Stroke :=
  if args.tool.getD "" = "highlighter" then
    { points := points
      toolType := StrokeTool.STROKE_TOOL_HIGHLIGHTER
      width := args.width.getD th.highlighterThickness
      color := args.color.getD th.highlighterColor
      fill := match args.fill with
        | some f => f
        | none => if th.highlighterFillEnabled then th.highlighterFill else -1
      lineStyle := args.lineStyle.getD "" }
  else
    { points := points
      toolType := StrokeTool.STROKE_TOOL_PEN
      width := args.width.getD th.penThickness
      color := args.color.getD th.penColor
      fill := match args.fill with
        | some f => f
        | none => if th.penFillEnabled then th.penFill else -1
      lineStyle := args.lineStyle.getD th.penLineStyle }

/-- `addStrokeHelper`: commits the stroke to the layer when it has at
least two points, resolving its attributes; otherwise the draft is
discarded with a logged warning and the layer is untouched. -/
def addStrokeHelper (args : StrokeAttrArgs) (th : ToolHandlerSnapshot)
    (points : List Point) (layer : Layer) : Layer :=
  if 2 ≤ points.length then
    { elements := layer.elements ++ [resolveStrokeAttributes args th points] }
  else
    layer

/-- Decoded argument table of `applib_addStroke`: the three parallel
coordinate tables plus the attribute fields. -/
structure AddStrokeArgs where
  x : Option (List ℚ)
  y : Option (List ℚ)
  pressure : Option (List ℚ)
  attrs : StrokeAttrArgs
deriving DecidableEq

/-- `applib_addStroke`.  The point-building loops of the source construct
`Point(yStream.at(i), xStream.at(i), pressure)` — the y stream is passed
as the first (x) constructor argument and the x stream as the second (y)
argument. -/
def applib_addStroke (args : AddStrokeArgs) (th : ToolHandlerSnapshot)
    (layer : Layer) : Except LuaAbort Layer :=
  match args.x with
  | none => Except.error (LuaAbort.validation "Missing X-Coordinate table!")
  | some xStream =>
    match args.y with
    | none => Except.error (LuaAbort.validation "Missing Y-Coordinate table!")
    | some yStream =>
      let pressureStream := args.pressure.getD []
      if xStream.length ≠ yStream.length then
        Except.error (LuaAbort.validation "X and Y vectors are not equal length!")
      else if xStream.length ≠ pressureStream.length ∧ 0 < pressureStream.length then
        Except.error (LuaAbort.validation "Pressure vector is not equal length!")
      else if xStream.length < 2 then
        Except.ok layer
      else
        let points :=
          if 0 < pressureStream.length then
            (List.range xStream.length).map fun i =>
              { x := yStream.getD i 0, y := xStream.getD i 0,
                pressure := pressureStream.getD i 0 : Point }
          else
            (List.range xStream.length).map fun i =>
              { x := yStream.getD i 0, y := xStream.getD i 0,
                pressure := NO_PRESSURE : Point }
        Except.ok (addStrokeHelper args.attrs th points layer)

/-- A spline segment: four control points (start, ctrl1, ctrl2, end);
the source field `end` is a reserved word here and is named `stop`. -/
structure SplineSegment where
  start : Point
  ctrl1 : Point
  ctrl2 : Point
  stop : Point
deriving DecidableEq

/-- The segment-building loop of `applib_addSpline`: consecutive groups of
8 numbers become one segment, every control point built with the
no-pressure sentinel.  (The loop runs only after the length is checked to
be a multiple of 8, so the residual non-matching case is empty.) -/
def buildSplineSegments : List ℚ → List SplineSegment
  | sx :: sy :: c1x :: c1y :: c2x :: c2y :: ex :: ey :: rest =>
      { start := { x := sx, y := sy, pressure := NO_PRESSURE }
        ctrl1 := { x := c1x, y := c1y, pressure := NO_PRESSURE }
        ctrl2 := { x := c2x, y := c2y, pressure := NO_PRESSURE }
        stop := { x := ex, y := ey, pressure := NO_PRESSURE } } ::
        buildSplineSegments rest
  | _ => []

/-- Decoded argument table of `applib_addSpline`. -/
structure AddSplineArgs where
  splines : Option (List ℚ)
  attrs : StrokeAttrArgs
deriving DecidableEq

/-- `applib_addSpline`, parametrized by `toPointSequence`, the
deterministic rasterization `SplineSegment::toPointSequence`
(model/SplineSegment.h is not under src/; the spec says only that it is a
pure function from the four control points to a finite ordered point
sequence, so the embedding quantifies over it).

Fidelity note on the missing-table path: after `lua_getfield(L, 1,
"splines")` the source checks `lua_istable(L, -2)`, but slot -2 then holds
the argument table itself, which `luaL_checktype` has already ensured is a
table; the check is thus never true and the message
`Missing Spline table!` is unreachable.  When the `splines` field is
absent, execution instead reaches `lua_next` on the nil field value,
a raw Lua fault, modelled as `runtimeFault`. -/
def applib_addSpline (toPointSequence : SplineSegment → List Point)
    (args : AddSplineArgs) (th : ToolHandlerSnapshot) (layer : Layer) :
    Except LuaAbort Layer :=
  match args.splines with
  | none => Except.error (LuaAbort.runtimeFault "lua_next applied to the nil splines field")
  | some coordStream =>
    if coordStream.length % 8 ≠ 0 then
      Except.error (LuaAbort.validation "Spline table incomplete!")
    else
      let points := (buildSplineSegments coordStream).flatMap toPointSequence
      Except.ok (addStrokeHelper args.attrs th points layer)

/-- Tool kinds relevant to `applib_changeToolColor`. -/
inductive ToolType where
  | TOOL_PEN
  | TOOL_HIGHLIGHTER
  | TOOL_TEXT
  | TOOL_ERASER
  | TOOL_NONE
deriving DecidableEq

/-- Modelled from the spec: `toolTypeFromString` (control/ToolEnums.cpp is
not under src/) maps the lower-cased tool name to its tag and anything
unknown to `TOOL_NONE`. -/
def toolTypeFromString (s : String) : ToolType :=
  if s = "pen" then ToolType.TOOL_PEN
  else if s = "highlighter" then ToolType.TOOL_HIGHLIGHTER
  else if s = "text" then ToolType.TOOL_TEXT
  else if s = "eraser" then ToolType.TOOL_ERASER
  else ToolType.TOOL_NONE

/-- Modelled from the spec: `Tool::hasCapability(TOOL_CAP_COLOR)`
(control/Tool.h is not under src/): pen, highlighter and text carry a
color; the eraser does not. -/
def hasColorCapability : ToolType → Bool
  | ToolType.TOOL_PEN => true
  | ToolType.TOOL_HIGHLIGHTER => true
  | ToolType.TOOL_TEXT => true
  | _ => false

/-- The per-tool colors held by the `ToolHandler`, plus the currently
active tool type. -/
structure ToolHandlerState where
  currentTool : ToolType
  penColor : ℕ
  highlighterColor : ℕ
  textColor : ℕ
  eraserColor : ℕ
deriving DecidableEq

/-- Color of one tool in the handler state. -/
def ToolHandlerState.getColor (st : ToolHandlerState) : ToolType → ℕ
  | ToolType.TOOL_PEN => st.penColor
  | ToolType.TOOL_HIGHLIGHTER => st.highlighterColor
  | ToolType.TOOL_TEXT => st.textColor
  | ToolType.TOOL_ERASER => st.eraserColor
  | ToolType.TOOL_NONE => 0

/-- `Tool::setColor` on the resolved tool. -/
def ToolHandlerState.setColor (st : ToolHandlerState) (t : ToolType) (c : ℕ) :
    ToolHandlerState :=
  match t with
  | ToolType.TOOL_PEN => { st with penColor := c }
  | ToolType.TOOL_HIGHLIGHTER => { st with highlighterColor := c }
  | ToolType.TOOL_TEXT => { st with textColor := c }
  | ToolType.TOOL_ERASER => { st with eraserColor := c }
  | ToolType.TOOL_NONE => st

/-- Host notifications fired by `applib_changeToolColor`. -/
inductive ToolEvent where
  | toolColorChanged
  | selectionColorChanged
deriving DecidableEq

/-- Decoded argument table of `applib_changeToolColor`. -/
structure ChangeToolColorArgs where
  selection : Option Bool
  tool : Option String
  color : Option Int
deriving DecidableEq

/-- Modelled from the spec: `StringUtils::toLowerCase` (util/StringUtils.h
is not under src/), character-wise lower-casing of the tool name. -/
def toLowerCase (s : String) : String := ⟨s.data.map Char.toLower⟩

/-- Target tool of `applib_changeToolColor`: the lower-cased explicit tool
name when given, the currently active tool otherwise. -/
def resolvedToolType (args : ChangeToolColorArgs) (st : ToolHandlerState) : ToolType :=
  match args.tool with
  | some s => toolTypeFromString (toLowerCase s)
  | none => st.currentTool

/-- Tail of `applib_changeToolColor`: set the color when the tool has the
color capability (firing `toolColorChanged`, and the selection recolor
when requested); otherwise log and skip. -/
def setToolColorChecked (st : ToolHandlerState) (toolType : ToolType) (color : ℕ)
    (selection : Bool) : ToolHandlerState × List ToolEvent :=
  if hasColorCapability toolType then
    (st.setColor toolType color,
      ToolEvent.toolColorChanged ::
        (if selection then [ToolEvent.selectionColorChanged] else []))
  else
    (st, [])

/-- `applib_changeToolColor`.  The local `color` variable starts at
0x000000 and is overwritten only when the `color` field is a Lua integer;
`as_unsigned` of the 64-bit Lua integer assigned to the `uint32_t` local
reduces the value modulo 2 to the 32.  A value above 0xffffff returns
early with a logged warning and no state change; an unresolved tool
(`TOOL_NONE`) likewise returns with no change. -/
def applib_changeToolColor (args : ChangeToolColorArgs) (st : ToolHandlerState) :
    ToolHandlerState × List ToolEvent :=
  let selection := args.selection.getD false
  let toolType := resolvedToolType args st
  if toolType = ToolType.TOOL_NONE then
    (st, [])
  else
    match args.color with
    | some c =>
        let color : ℕ := (c % (2 : Int) ^ 32).toNat
        if 0xffffff < color then (st, [])
        else setToolColorChecked st toolType color selection
    | none => setToolColorChecked st toolType 0 selection

/-- A document page as `applib_setPageSize` sees it. -/
structure Page where
  width : ℚ
  height : ℚ
deriving DecidableEq

/-- Document-side effects of `applib_setPageSize`, in program order. -/
inductive PageEvent where
  | lockDocument
  | setSize (pageNo : ℕ) (width height : ℚ)
  | unlockDocument
  | firePageSizeChanged (pageNo : ℕ)
deriving DecidableEq

/-- The resolved width (or height) of `applib_setPageSize`: in relative
mode the current page size is added to the argument. -/
def resolvedSize (relative : Option Bool) (arg current : ℚ) : ℚ :=
  if relative.getD false then arg + current else arg

/-- `applib_setPageSize`.  The document is the page list; the current page
is an optional index.  A null current page aborts with `No page!`.  In
relative mode the current size is added.  The size is mutated (under the
document lock) only when both resolved values are strictly positive;
`firePageSizeChanged` fires afterwards whenever `indexOf` finds the page
in the document (always, for an in-document current page).  A current
page object outside the document (`indexOf` = npos) leaves the document
list untouched and skips the notification. -/
def applib_setPageSize (doc : List Page) (currentPage : Option ℕ)
    (width height : ℚ) (relative : Option Bool) :
    Except LuaAbort (List Page × List PageEvent) :=
  match currentPage with
  | none => Except.error (LuaAbort.validation "No page!")
  | some i =>
    match doc.get? i with
    | none => Except.ok (doc, [])
    | some page =>
      let w := resolvedSize relative width page.width
      let h := resolvedSize relative height page.height
      if 0 < w ∧ 0 < h then
        Except.ok (doc.set i { width := w, height := h },
          [PageEvent.lockDocument, PageEvent.setSize i w h,
           PageEvent.unlockDocument, PageEvent.firePageSizeChanged i])
      else
        Except.ok (doc, [PageEvent.firePageSizeChanged i])

/-- The current page as `applib_setCurrentLayer` sees it: the number of
content layers, the selected layer id and the per-layer visibility flags
(index 0 is the background layer). -/
structure LayerPage where
  layerCount : ℕ
  selectedLayer : ℕ
  visibility : List Bool
deriving DecidableEq

/-- Modelled from the spec: `LayerController::switchToLay` (not under
src/) makes `layerId` the current layer; when `update` is set, layers
0..layerId become visible and the rest hidden. -/
def switchToLay (page : LayerPage) (layerId : ℕ) (update : Bool) : LayerPage :=
  { page with
    selectedLayer := layerId
    visibility :=
      if update then
        (List.range page.visibility.length).map fun k => decide (k ≤ layerId)
      else page.visibility }

/-- `applib_setCurrentLayer`.  The layer id is read with
`luaL_checkinteger` into a `size_t`, so a negative Lua integer wraps
modulo 2 to the 64; the guard `layerId < 0` in the source is on the
already-unsigned value and is constant false, leaving only the
`layerId > layerCount` test. -/
def applib_setCurrentLayer (page : Option LayerPage) (layerId : Int)
    (update : Option Bool) : Except LuaAbort LayerPage :=
  match page with
  | none => Except.error (LuaAbort.validation "No page!")
  | some page =>
    let lid : ℕ := (layerId % (2 : Int) ^ 64).toNat
    if page.layerCount < lid then
      Except.error (LuaAbort.validation "No layer with layer ID")
    else
      Except.ok (switchToLay page lid (update.getD false))

/-- `std::clamp` on integers: `v` below `lo` gives `lo`, above `hi` gives
`hi` (defined behavior only for `lo ≤ hi`). -/
def stdClamp (v lo hi : Int) : Int :=
  if v < lo then lo else if hi < v then hi else v

/-- `std::clamp` at `size_t`, as used by `applib_setCurrentPage`. -/
def stdClampNat (v lo hi : ℕ) : ℕ :=
  if v < lo then lo else if hi < v then hi else v

/-- `applib_scrollToPage`: resolves the target relative to the current
page or absolutely (1-based argument, hence `val - 1`), then clamps into
[0, pageCount - 1] and scrolls there.  Integers are modelled
mathematically; the C `int`/`size_t` conversions on this path are
value-preserving whenever the resolved index fits in a 32-bit int. -/
def applib_scrollToPage (pageCount currentPageNo : ℕ) (val : Int)
    (relative : Option Bool) : Int :=
  let page : Int :=
    if relative.getD false then (currentPageNo : Int) + val else val - 1
  stdClamp page 0 ((pageCount : Int) - 1)

/-- `applib_setCurrentPage`: the 1-based page id is read into a `size_t`
(negative Lua integers wrap modulo 2 to the 64), clamped into
[1, pageCount], then decremented to the 0-based page index handed to
`firePageSelected`. -/
def applib_setCurrentPage (pageCount : ℕ) (pageId : Int) : ℕ :=
  stdClampNat (pageId % (2 : Int) ^ 64).toNat 1 pageCount - 1

/-- Decoded argument table of `applib_registerUi`; each field read with
`luaL_optstring(.., nullptr)`. -/
structure RegisterUiArgs where
  accelerator : Option String
  menu : Option String
  callback : Option String
deriving DecidableEq

/-- One registered menu entry: (menu label, callback name, accelerator). -/
structure MenuEntry where
  menu : String
  callback : String
  accelerator : String
deriving DecidableEq

/-- Per-script plugin context as `applib_registerUi` sees it. -/
structure PluginState where
  inInitUi : Bool
  menus : List MenuEntry
deriving DecidableEq

/-- The record returned by `applib_registerUi`. -/
structure UiRegistrationResult where
  menuId : Int
  toolbarId : Int
deriving DecidableEq

/-- `applib_registerUi`.  Outside the UI-init phase or without a callback
name the call aborts.  `Plugin::registerMenu` (not under src/) is
modelled from the spec as appending the entry and returning an opaque
integer handle (here: the prior entry count).  The local `toolbarId` is
the constant -1 and is returned unchanged in the result record. -/
def applib_registerUi (st : PluginState) (args : RegisterUiArgs) :
    Except LuaAbort (PluginState × UiRegistrationResult) :=
  if ¬ st.inInitUi then
    Except.error (LuaAbort.validation "registerUi needs to be called within initUi()")
  else
    match args.callback with
    | none => Except.error (LuaAbort.validation "Missing callback function!")
    | some callback =>
      let menu := args.menu.getD ""
      let accelerator := args.accelerator.getD ""
      let toolbarId : Int := -1
      let menuId : Int := st.menus.length
      Except.ok ({ st with menus := st.menus ++ [{ menu := menu, callback := callback, accelerator := accelerator }] },
        { menuId := menuId, toolbarId := toolbarId })

/-! ### Concrete states used by the closed theorems and witnesses -/

/-- A concrete tool snapshot used by the concrete-input theorems. -/
def demoSnapshot : ToolHandlerSnapshot :=
  { penThickness := 2, penFill := 100, penFillEnabled := false, penColor := 255,
    penLineStyle := "solid",
    highlighterThickness := 6, highlighterFill := 120, highlighterFillEnabled := true,
    highlighterColor := 65280 }

/-- The all-absent attribute table. -/
def demoAttrs : StrokeAttrArgs :=
  { tool := none, width := none, color := none, fill := none, lineStyle := none }

/-- A concrete rasterization for the concrete-input theorems: each segment
contributes its two endpoints. -/
def demoRaster (seg : SplineSegment) : List Point := [seg.start, seg.stop]

/-- The stroke `applib_addStroke` commits for x = [1, 2], y = [3, 4] under
`demoSnapshot` with all attribute fields absent: note the x-coordinates of
its points are the y inputs and vice versa. -/
def swappedStroke : Stroke :=
  { points := [{ x := 3, y := 1, pressure := NO_PRESSURE },
               { x := 4, y := 2, pressure := NO_PRESSURE }]
    toolType := StrokeTool.STROKE_TOOL_PEN
    width := 2
    color := 255
    fill := -1
    lineStyle := "solid" }

/-- A concrete tool-handler state used by the concrete-input theorems. -/
def demoToolState : ToolHandlerState :=
  { currentTool := ToolType.TOOL_PEN, penColor := 0xFF0000, highlighterColor := 0x00FF00,
    textColor := 0x0000FF, eraserColor := 0 }

/-! ### Theorems -/

/-- Helper: attribute resolution never changes the point sequence. -/
theorem resolveStrokeAttributes_points (args : StrokeAttrArgs) (th : ToolHandlerSnapshot)
    (points : List Point) : (resolveStrokeAttributes args th points).points = points := by
  unfold resolveStrokeAttributes
  split <;> rfl

/-- C1: evaluation at the failing input x = [1, 2], y = [3, 4] (no
pressure).  Exactly one stroke with len(x) points carrying the no-pressure
sentinel is committed, but its i-th point has x-coordinate y_i and
y-coordinate x_i: the source passes `yStream.at(i)` as the first (x)
argument of the `Point` constructor and `xStream.at(i)` as the second. -/
theorem addStroke_swaps_x_and_y :
    applib_addStroke { x := some [1, 2], y := some [3, 4], pressure := none, attrs := demoAttrs }
        demoSnapshot { elements := [] } = Except.ok { elements := [swappedStroke] } ∧
    swappedStroke.points.map Point.x = [3, 4] ∧
    swappedStroke.points.map Point.y = [1, 2] :=
  ⟨rfl, rfl, rfl⟩

/-- C8 counterexample: a pressure sequence that is present but empty and
whose length (0) differs from len(x) = 2 does not raise; the call commits
a stroke, because the source only checks the pressure length when the
decoded pressure vector is non-empty. -/
theorem addStroke_empty_pressure_cex :
    applib_addStroke { x := some [1, 2], y := some [3, 4], pressure := some [], attrs := demoAttrs }
        demoSnapshot { elements := [] } = Except.ok { elements := [swappedStroke] } :=
  rfl

/-- C8 (amended): a length mismatch between x and y raises the
length-mismatch ValidationError, and a present, non-empty pressure
sequence of different length raises the pressure-mismatch
ValidationError; an error return models the `luaL_error` abort, under
which no layer mutation happens. -/
theorem addStroke_length_mismatch_raises
    (xs ys : List ℚ) (pressure : Option (List ℚ)) (attrs : StrokeAttrArgs)
    (th : ToolHandlerSnapshot) (layer : Layer) :
    (xs.length ≠ ys.length →
      applib_addStroke { x := some xs, y := some ys, pressure := pressure, attrs := attrs } th layer =
        Except.error (LuaAbort.validation "X and Y vectors are not equal length!")) ∧
    (∀ ps : List ℚ, pressure = some ps → xs.length = ys.length →
      ps.length ≠ xs.length → 0 < ps.length →
      applib_addStroke { x := some xs, y := some ys, pressure := pressure, attrs := attrs } th layer =
        Except.error (LuaAbort.validation "Pressure vector is not equal length!")) := by
  constructor
  · intro hxy
    simp only [applib_addStroke]
    rw [if_pos hxy]
  · rintro ps rfl hxy hp hpos
    simp only [applib_addStroke, Option.getD_some]
    rw [if_neg (fun h => h hxy), if_pos ⟨hp.symm, hpos⟩]

/-- C8 witness: concrete mismatching call. -/
theorem addStroke_length_mismatch_raises_witness :
    applib_addStroke { x := some [1], y := some [], pressure := none, attrs := demoAttrs }
        demoSnapshot { elements := [] } =
      Except.error (LuaAbort.validation "X and Y vectors are not equal length!") :=
  (addStroke_length_mismatch_raises [1] [] none demoAttrs demoSnapshot { elements := [] }).1
    (by decide)

/-- C3 counterexample: the empty spline stream has length divisible by 8,
so no ValidationError is raised, yet no stroke is committed either — the
zero-point draft is discarded by the fewer-than-two-points check of
`addStrokeHelper`, against the claim that one stroke is always committed
in the non-error case. -/
theorem addSpline_empty_stream_cex :
    (List.length ([] : List ℚ)) % 8 = 0 ∧
    applib_addSpline demoRaster { splines := some [], attrs := demoAttrs } demoSnapshot
        { elements := [] } = Except.ok { elements := [] } :=
  ⟨rfl, rfl⟩

/-- C3 (amended): with the splines table present, `applib_addSpline`
raises the ValidationError exactly when the stream length is not a
multiple of 8; otherwise, when the total rasterization length is at least
2, exactly one stroke is appended whose point count is the sum of the per
segment rasterization lengths, and when it is below 2 the draft is
discarded and the layer is unchanged.  The theorem holds for every
deterministic rasterization function. -/
theorem addSpline_length_check_and_commit
    (toPointSequence : SplineSegment → List Point) (coordStream : List ℚ)
    (attrs : StrokeAttrArgs) (th : ToolHandlerSnapshot) (layer : Layer) :
    (coordStream.length % 8 ≠ 0 →
      applib_addSpline toPointSequence { splines := some coordStream, attrs := attrs } th layer =
        Except.error (LuaAbort.validation "Spline table incomplete!")) ∧
    (coordStream.length % 8 = 0 →
      (2 ≤ ((buildSplineSegments coordStream).flatMap toPointSequence).length →
        applib_addSpline toPointSequence { splines := some coordStream, attrs := attrs } th layer =
          Except.ok { elements := layer.elements ++
            [resolveStrokeAttributes attrs th
              ((buildSplineSegments coordStream).flatMap toPointSequence)] } ∧
        (resolveStrokeAttributes attrs th
            ((buildSplineSegments coordStream).flatMap toPointSequence)).points.length =
          ((buildSplineSegments coordStream).map fun seg => (toPointSequence seg).length).sum) ∧
      (((buildSplineSegments coordStream).flatMap toPointSequence).length < 2 →
        applib_addSpline toPointSequence { splines := some coordStream, attrs := attrs } th layer =
          Except.ok layer)) := by
  constructor
  · intro h8
    simp only [applib_addSpline]
    rw [if_pos h8]
  · intro h8
    have hok : applib_addSpline toPointSequence { splines := some coordStream, attrs := attrs } th layer =
        Except.ok (addStrokeHelper attrs th
          ((buildSplineSegments coordStream).flatMap toPointSequence) layer) := by
      simp only [applib_addSpline]
      rw [if_neg (fun h => h h8)]
    constructor
    · intro h2
      refine ⟨?_, ?_⟩
      · rw [hok]
        simp only [addStrokeHelper]
        rw [if_pos h2]
      · rw [resolveStrokeAttributes_points, List.length_flatMap]
        rfl
    · intro h2
      rw [hok]
      simp only [addStrokeHelper]
      rw [if_neg (by omega)]

/-- C3 witness: one concrete segment, rasterized to its two endpoints. -/
theorem addSpline_length_check_and_commit_witness :
    applib_addSpline demoRaster { splines := some [0, 0, 1, 1, 2, 2, 3, 3], attrs := demoAttrs }
        demoSnapshot { elements := [] } =
      Except.ok { elements := [resolveStrokeAttributes demoAttrs demoSnapshot
        ((buildSplineSegments [0, 0, 1, 1, 2, 2, 3, 3]).flatMap demoRaster)] } ∧
    (resolveStrokeAttributes demoAttrs demoSnapshot
        ((buildSplineSegments [0, 0, 1, 1, 2, 2, 3, 3]).flatMap demoRaster)).points.length =
      ((buildSplineSegments [0, 0, 1, 1, 2, 2, 3, 3]).map fun seg => (demoRaster seg).length).sum := by
  have h := (addSpline_length_check_and_commit demoRaster [0, 0, 1, 1, 2, 2, 3, 3] demoAttrs
    demoSnapshot { elements := [] }).2 (by decide)
  exact h.1 (by decide)

/-- C4: with the splines field absent, the call does not abort with the
documented `Missing Spline table!` ValidationError: the source checks
`lua_istable` at stack slot -2, which holds the already-checked argument
table, so the check never fires and execution reaches `lua_next` on the
nil splines value — a raw Lua fault, not the documented error. -/
theorem addSpline_missing_table_is_runtime_fault :
    applib_addSpline demoRaster { splines := none, attrs := demoAttrs } demoSnapshot
        { elements := [] } =
      Except.error (LuaAbort.runtimeFault "lua_next applied to the nil splines field") :=
  rfl

/-- C2 counterexample: with the color field absent and the pen tool (which
has the color capability) resolved, the pen color afterwards is 0x000000,
not its prior color 0xFF0000: the local color variable of the source
defaults to 0x000000, not to the current tool color. -/
theorem changeToolColor_absent_color_cex :
    ((applib_changeToolColor { selection := none, tool := none, color := none } demoToolState).1).penColor ≠
      demoToolState.penColor := by
  decide

/-- C2 (amended): when the color field is absent, the resolved target
tool ends with color 0x000000 (black) — the default is the constant
0x000000, not the current color — whenever the tool resolves and has the
color capability. -/
theorem changeToolColor_absent_color_defaults_black
    (args : ChangeToolColorArgs) (st : ToolHandlerState)
    (hc : args.color = none)
    (ht : resolvedToolType args st ≠ ToolType.TOOL_NONE)
    (hcap : hasColorCapability (resolvedToolType args st) = true) :
    ((applib_changeToolColor args st).1).getColor (resolvedToolType args st) = 0 := by
  simp only [applib_changeToolColor, hc]
  rw [if_neg ht]
  simp only [setToolColorChecked]
  rw [if_pos hcap]
  generalize resolvedToolType args st = t at ht
  cases t
  case TOOL_NONE => exact absurd rfl ht
  all_goals rfl

/-- C2 witness: concrete call with an absent color field. -/
theorem changeToolColor_absent_color_defaults_black_witness :
    ((applib_changeToolColor { selection := none, tool := some "pen", color := none }
        demoToolState).1).getColor
      (resolvedToolType { selection := none, tool := some "pen", color := none } demoToolState) = 0 :=
  changeToolColor_absent_color_defaults_black
    { selection := none, tool := some "pen", color := none } demoToolState rfl
    (by decide) (by decide)

/-- C6: for every initial tool-handler state,
changeToolColor(color 0xAABBCC, tool pen) sets exactly the pen color to
0xAABBCC and leaves all other tool colors (and the active tool) unchanged,
and changeToolColor(color 0x1000000) — out of the [0, 0xFFFFFF] domain —
leaves the whole state unchanged, returning after a logged warning rather
than aborting. -/
theorem changeToolColor_concrete_calls (st : ToolHandlerState) :
    (applib_changeToolColor { selection := none, tool := some "pen", color := some 0xAABBCC } st).1 =
      { st with penColor := 0xAABBCC } ∧
    (applib_changeToolColor { selection := none, tool := none, color := some 0x1000000 } st).1 = st := by
  obtain ⟨ct, p, hl, t, e⟩ := st
  exact ⟨rfl, by cases ct <;> rfl⟩

/-- C5: with the current page present at index i, the page size is
mutated exactly when both resolved values are strictly positive, in which
case the effect trace is acquire-lock, mutate, release-lock, notify, in
that order; with a non-positive resolved width or height the document is
unchanged (no lock, no mutation — only the notification fires). -/
theorem setPageSize_positive_guard_and_order
    (doc : List Page) (i : ℕ) (page : Page) (width height : ℚ) (relative : Option Bool)
    (hpage : doc.get? i = some page) :
    (¬ (0 < resolvedSize relative width page.width ∧
        0 < resolvedSize relative height page.height) →
      applib_setPageSize doc (some i) width height relative =
        Except.ok (doc, [PageEvent.firePageSizeChanged i])) ∧
    ((0 < resolvedSize relative width page.width ∧
        0 < resolvedSize relative height page.height) →
      applib_setPageSize doc (some i) width height relative =
        Except.ok (doc.set i
            { width := resolvedSize relative width page.width,
              height := resolvedSize relative height page.height },
          [PageEvent.lockDocument,
           PageEvent.setSize i (resolvedSize relative width page.width)
             (resolvedSize relative height page.height),
           PageEvent.unlockDocument, PageEvent.firePageSizeChanged i])) := by
  constructor
  · intro hneg
    simp only [applib_setPageSize, hpage]
    rw [if_neg hneg]
  · intro hpos
    simp only [applib_setPageSize, hpage]
    rw [if_pos hpos]

/-- C5 witness: concrete absolute-mode call on a one-page document. -/
theorem setPageSize_positive_guard_and_order_witness :
    applib_setPageSize [{ width := 10, height := 10 }] (some 0) 5 5 none =
      Except.ok ([{ width := 5, height := 5 }],
        [PageEvent.lockDocument, PageEvent.setSize 0 5 5, PageEvent.unlockDocument,
         PageEvent.firePageSizeChanged 0]) := by
  have h := (setPageSize_positive_guard_and_order [{ width := 10, height := 10 }] 0
      { width := 10, height := 10 } 5 5 none rfl).2 (by constructor <;> norm_num [resolvedSize])
  simpa [resolvedSize] using h

/-- C7: under the 64-bit Lua integer bounds and a layer count below 2 to
the 63, `applib_setCurrentLayer` raises the ValidationError exactly for a
layer id outside [0, layerCount] (a negative id wraps to a huge size_t
value and fails the upper-bound test), leaving the page untouched; an id
inside the range becomes the selected layer, with the visibility flags
rewritten (layers 0..layerId visible, the rest hidden) exactly when the
update flag is true. -/
theorem setCurrentLayer_range_check
    (page : LayerPage) (layerId : Int) (update : Option Bool)
    (hcount : (page.layerCount : Int) < 2 ^ 63)
    (hlo : -(2 ^ 63) ≤ layerId) (hhi : layerId < 2 ^ 63) :
    ((layerId < 0 ∨ (page.layerCount : Int) < layerId) →
      applib_setCurrentLayer (some page) layerId update =
        Except.error (LuaAbort.validation "No layer with layer ID")) ∧
    ((0 ≤ layerId ∧ layerId ≤ (page.layerCount : Int)) →
      applib_setCurrentLayer (some page) layerId update =
        Except.ok { page with
          selectedLayer := layerId.toNat
          visibility :=
            if update.getD false then
              (List.range page.visibility.length).map fun k => decide (k ≤ layerId.toNat)
            else page.visibility }) := by
  have h64 : ((2 : Int) ^ 64) = 18446744073709551616 := by norm_num
  have h63 : ((2 : Int) ^ 63) = 9223372036854775808 := by norm_num
  rw [h63] at hcount hlo hhi
  constructor
  · intro hcase
    simp only [applib_setCurrentLayer, h64]
    rcases hcase with hneg | hbig
    · rw [if_pos (by omega)]
    · rw [if_pos (by omega)]
  · rintro ⟨h0, hle⟩
    simp only [applib_setCurrentLayer, h64]
    rw [if_neg (by omega)]
    have hmod : layerId % 18446744073709551616 = layerId := by omega
    rw [hmod]
    simp only [switchToLay]

/-- C7 witness: concrete in-range call without visibility update. -/
theorem setCurrentLayer_range_check_witness :
    applib_setCurrentLayer
        (some { layerCount := 2, selectedLayer := 0, visibility := [true, true, true] }) 1 none =
      Except.ok { layerCount := 2, selectedLayer := 1, visibility := [true, true, true] } := by
  have h := (setCurrentLayer_range_check
      { layerCount := 2, selectedLayer := 0, visibility := [true, true, true] } 1 none
      (by norm_num) (by norm_num) (by norm_num)).2 ⟨by norm_num, by norm_num⟩
  simpa using h

/-- C9: on a non-empty document both page-navigation entry points clamp
into [0, pageCount - 1] and never raise (they are total functions); in
particular the absolute call with argument pageCount + 5 resolves to the
last page index pageCount - 1. -/
theorem scrollToPage_setCurrentPage_clamp
    (pageCount currentPageNo : ℕ) (val pageId : Int) (relative : Option Bool)
    (hpc : 1 ≤ pageCount) :
    (0 ≤ applib_scrollToPage pageCount currentPageNo val relative ∧
      applib_scrollToPage pageCount currentPageNo val relative ≤ (pageCount : Int) - 1) ∧
    applib_scrollToPage pageCount currentPageNo ((pageCount : Int) + 5) none = (pageCount : Int) - 1 ∧
    applib_setCurrentPage pageCount pageId < pageCount := by
  have h64 : ((2 : Int) ^ 64) = 18446744073709551616 := by norm_num
  refine ⟨?_, ?_, ?_⟩
  · simp only [applib_scrollToPage, stdClamp]
    split_ifs <;> omega
  · simp only [applib_scrollToPage, stdClamp, Option.getD_none, Bool.false_eq_true, if_false]
    split_ifs <;> omega
  · simp only [applib_setCurrentPage, stdClampNat, h64]
    split_ifs <;> omega

/-- C9 witness: concrete three-page document. -/
theorem scrollToPage_setCurrentPage_clamp_witness :
    (0 ≤ applib_scrollToPage 3 0 7 none ∧ applib_scrollToPage 3 0 7 none ≤ ((3 : ℕ) : Int) - 1) ∧
    applib_scrollToPage 3 0 (((3 : ℕ) : Int) + 5) none = ((3 : ℕ) : Int) - 1 ∧
    applib_setCurrentPage 3 99 < 3 :=
  scrollToPage_setCurrentPage_clamp 3 0 7 99 none (by norm_num)

/-- C10: every successful registerUi call returns toolbarId = -1: the
bridge never registers a toolbar item, the handle is a constant dummy. -/
theorem registerUi_toolbarId_constant
    (st st' : PluginState) (args : RegisterUiArgs) (res : UiRegistrationResult)
    (h : applib_registerUi st args = Except.ok (st', res)) :
    res.toolbarId = -1 := by
  unfold applib_registerUi at h
  split at h
  · exact absurd h (by simp)
  · split at h
    · exact absurd h (by simp)
    · simp only [Except.ok.injEq, Prod.mk.injEq] at h
      rw [← h.2]

/-- C10 witness: concrete successful registration. -/
theorem registerUi_toolbarId_constant_witness :
    ({ menuId := 0, toolbarId := -1 } : UiRegistrationResult).toolbarId = -1 :=
  registerUi_toolbarId_constant { inInitUi := true, menus := [] }
    { inInitUi := true, menus := [{ menu := "", callback := "cb", accelerator := "" }] }
    { accelerator := none, menu := none, callback := some "cb" }
    { menuId := 0, toolbarId := -1 } rfl

end Xpp
